import Mathlib

/-!
Verification development for the AvaMessanger message pipeline.

The definitions below are shallow embeddings of the JavaScript source:
the transcript store / deduplication gate (`addMessageToChat` and the
delete operations from the `data-storage` module), the settings reader
(`getAIInstruction`, `setAIInstruction`), and the WebSocket send /
auto-reply handlers of the server.

Modelling conventions:
* JavaScript strings are Lean `String`s; `.length` counts characters
  (the sources only compare lengths of ordinary text).  The JS string
  primitives used by the source (`trim`, `toLowerCase`, `includes`,
  `startsWith`, `split`, `join`) are re-implemented below on `List Char`
  so that every definition evaluates by kernel reduction.
* A message `timestamp` (an ISO-8601 string in the source) is represented
  by its `Date.parse` value in milliseconds since the epoch, as
  `Option Int`: `none` stands for a string whose parse is `NaN`.
* Possibly-absent or possibly-non-string fields are `Option` fields;
  JavaScript truthiness of a string field treats `none` and `""` as falsy.
* Stateful code is explicit state passing; the persistent chats file is a
  total map `String → List Message` (a missing key and an empty list are
  observationally equal in the source, which defaults missing keys to `[]`).
-/

namespace Ava

set_option maxRecDepth 16000

/-- JS `o || d` for an optional string field: `none` and `""` are falsy. -/
def jsOrStr (o : Option String) (d : String) : String :=
  match o with
  | some s => if s = "" then d else s
  | none => d

/-- JS `s.trim()`: strip leading and trailing whitespace. -/
def jsTrim (s : String) : String :=
  String.mk (((s.toList.dropWhile Char.isWhitespace).reverse.dropWhile
    Char.isWhitespace).reverse)

/-- JS `s.toLowerCase()` (ASCII case folding suffices for the phrases the
source compares). -/
def jsToLower (s : String) : String :=
  String.mk (s.toList.map Char.toLower)

/-- `startsSeq needle hay` is true when `needle` is an initial segment of `hay`. -/
def startsSeq : List Char → List Char → Bool
  | [], _ => true
  | _ :: _, [] => false
  | a :: as, b :: bs => a == b && startsSeq as bs

/-- `containsSeq needle hay` is true when `needle` occurs contiguously in `hay`. -/
def containsSeq (needle : List Char) : List Char → Bool
  | [] => needle.isEmpty
  | c :: t => startsSeq needle (c :: t) || containsSeq needle t

/-- JS `s.includes(sub)`. -/
def jsIncludes (s sub : String) : Bool :=
  containsSeq sub.toList s.toList

/-- JS `s.startsWith(pre)`. -/
def jsStartsWith (s pre : String) : Bool :=
  startsSeq pre.toList s.toList

/-- Helper for `jsSplitChar`: accumulate the current segment (reversed). -/
def splitCharAux (sep : Char) : List Char → List Char → List (List Char)
  | [], acc => [acc.reverse]
  | c :: t, acc =>
    if c = sep then acc.reverse :: splitCharAux sep t [] else splitCharAux sep t (c :: acc)

/-- JS `s.split(sep)` for a one-character separator (the only form the source
uses: `split(':')`, `split('_')`, `split('\n')`). -/
def jsSplitChar (s : String) (sep : Char) : List String :=
  (splitCharAux sep s.toList []).map String.mk

/-- JS `parts.join(sep)`. -/
def jsJoin (sep : String) : List String → String
  | [] => ""
  | [x] => x
  | x :: xs => x ++ sep ++ jsJoin sep xs

/-- A stored / candidate message record (`Message` of the data-storage module,
extended with the two assisted-mode flags the server attaches).  See the
modelling conventions: `ts` is the millisecond parse of the `timestamp` field. -/
structure Message where
  id : String
  content : Option String := none
  direction : Option String := none
  subType : Option String := none
  ts : Option Int := none
  isOriginalInSemiAI : Bool := false
  isAIRewrite : Bool := false
  deriving DecidableEq, Repr

/-- `typeof message?.content === 'string' ? message.content.trim() : ''`. -/
def msgContentOf (m : Message) : String :=
  match m.content with
  | some s => jsTrim s
  | none => ""

/-- `message?.direction || ''`. -/
def msgDirectionOf (m : Message) : String :=
  jsOrStr m.direction ""

/-- `message?.subType || 'chat'`. -/
def msgSubTypeOf (m : Message) : String :=
  jsOrStr m.subType "chat"

/-- Body of the `duplicateByContent` scan of `addMessageToChat`, evaluated at a
stored message `m` against the candidate's trimmed content `c`, direction `d`,
subType `k` and parsed timestamp `t`. -/
def isContentDup (c d k : String) (t : Int) (m : Message) : Bool :=
  match m.ts with
  | none => false
  | some et =>
    !(msgContentOf m == "") && (msgDirectionOf m == d) && (msgSubTypeOf m == k)
      && (msgContentOf m == c) && decide ((et - t).natAbs ≤ 8000)

/-- Per-conversation core of `addMessageToChat`: given the stored list for the
conversation and a candidate, returns the new list and whether the candidate
was inserted (`true`) or rejected as a duplicate (`false`). -/
def addMessage (msgs : List Message) (msg : Message) : List Message × Bool :=
  if !(msg.id == "") && msgs.any (fun m => m.id == msg.id) then
    (msgs, false)
  else if (match msg.ts with
      | some t =>
        !(msgContentOf msg == "") &&
          msgs.any (isContentDup (msgContentOf msg) (msgDirectionOf msg) (msgSubTypeOf msg) t)
      | none => false) then
    (msgs, false)
  else
    (msgs ++ [msg], true)

/-- The persisted chats store: conversation id ↦ stored message list. -/
def Chats : Type := String → List Message

/-- The store as read when `chats.json` is absent. -/
def emptyChats : Chats := fun _ => []

/-- `addMessageToChat(jid, message)`: the store is rewritten only when the
candidate is accepted; a rejection leaves the persisted store untouched. -/
def addMessageToChat (chats : Chats) (jid : String) (msg : Message) : Chats × Bool :=
  if (addMessage (chats jid) msg).2 then
    ((fun j => if j = jid then (addMessage (chats jid) msg).1 else chats j), true)
  else
    (chats, false)

/-- Store states reachable from the empty store by `addMessageToChat` calls. -/
inductive Reachable : Chats → Prop where
  | empty : Reachable emptyChats
  | step (c : Chats) (jid : String) (m : Message) :
      Reachable c → Reachable (addMessageToChat c jid m).1

/-! Basic facts about the gate. -/

theorem addMessage_cases (msgs : List Message) (msg : Message) :
    addMessage msgs msg = (msgs, false) ∨ addMessage msgs msg = (msgs ++ [msg], true) := by
  unfold addMessage
  split
  · exact Or.inl rfl
  · split
    · exact Or.inl rfl
    · exact Or.inr rfl

theorem addMessage_snd_false (msgs : List Message) (msg : Message)
    (h : (addMessage msgs msg).2 = false) : (addMessage msgs msg).1 = msgs := by
  rcases addMessage_cases msgs msg with h' | h' <;> rw [h'] at h ⊢
  simp at h

theorem addMessage_snd_true (msgs : List Message) (msg : Message)
    (h : (addMessage msgs msg).2 = true) : (addMessage msgs msg).1 = msgs ++ [msg] := by
  rcases addMessage_cases msgs msg with h' | h' <;> rw [h'] at h ⊢
  simp at h

theorem addMessage_accepted_id (msgs : List Message) (msg : Message)
    (h : (addMessage msgs msg).2 = true) (hne : msg.id ≠ "") :
    ∀ m ∈ msgs, m.id ≠ msg.id := by
  intro m hm heq
  unfold addMessage at h
  split at h
  · simp at h
  · next hcond =>
    apply hcond
    simp only [Bool.and_eq_true, Bool.not_eq_true', beq_eq_false_iff_ne, ne_eq,
      List.any_eq_true, beq_iff_eq]
    exact ⟨hne, m, hm, heq⟩

theorem addMessage_mem_id_rejected (msgs : List Message) (msg : Message)
    (m : Message) (hm : m ∈ msgs) (hid : m.id = msg.id) (hne : msg.id ≠ "") :
    addMessage msgs msg = (msgs, false) := by
  unfold addMessage
  split
  · rfl
  · next hcond =>
    exfalso
    apply hcond
    simp only [Bool.and_eq_true, Bool.not_eq_true', beq_eq_false_iff_ne, ne_eq,
      List.any_eq_true, beq_iff_eq]
    exact ⟨hne, m, hm, hid⟩

theorem addMessage_content_dup_rejected (s : List Message) (m1 m2 : Message)
    (t1 t2 : Int) (h1 : m1 ∈ s)
    (hc : msgContentOf m1 = msgContentOf m2) (hcne : msgContentOf m2 ≠ "")
    (hd : msgDirectionOf m1 = msgDirectionOf m2) (hk : msgSubTypeOf m1 = msgSubTypeOf m2)
    (ht1 : m1.ts = some t1) (ht2 : m2.ts = some t2)
    (hw : (t1 - t2).natAbs ≤ 8000) :
    addMessage s m2 = (s, false) := by
  unfold addMessage
  split
  · rfl
  · have hdup :
        (match m2.ts with
          | some t =>
            !(msgContentOf m2 == "") &&
              s.any (isContentDup (msgContentOf m2) (msgDirectionOf m2) (msgSubTypeOf m2) t)
          | none => false) = true := by
      rw [ht2]
      simp only [Bool.and_eq_true, Bool.not_eq_true', beq_eq_false_iff_ne, ne_eq,
        List.any_eq_true]
      refine ⟨hcne, m1, h1, ?_⟩
      unfold isContentDup
      rw [ht1]
      simp only [Bool.and_eq_true, Bool.not_eq_true', beq_eq_false_iff_ne, ne_eq,
        beq_iff_eq, decide_eq_true_eq]
      exact ⟨⟨⟨⟨fun hh => hcne (hc.symm.trans hh), hd⟩, hk⟩, hc⟩, hw⟩
    rw [hdup]
    simp

theorem addMessage_nil (m : Message) : addMessage [] m = ([m], true) := by
  unfold addMessage
  cases h : m.ts <;> simp

theorem addMessage_far_apart (m1 m2 : Message) (t1 t2 : Int)
    (hid : m2.id ≠ m1.id) (ht1 : m1.ts = some t1) (ht2 : m2.ts = some t2)
    (hfar : 8000 < (t1 - t2).natAbs) :
    addMessage [m1] m2 = ([m1, m2], true) := by
  unfold addMessage
  have hida : (!(m2.id == "") && [m1].any (fun m => m.id == m2.id)) = false := by
    simp only [List.any_cons, List.any_nil, Bool.or_false, Bool.and_eq_false_iff]
    right
    exact beq_eq_false_iff_ne.mpr fun h => hid h.symm
  rw [hida]
  have hdup :
      (match m2.ts with
        | some t =>
          !(msgContentOf m2 == "") &&
            [m1].any (isContentDup (msgContentOf m2) (msgDirectionOf m2) (msgSubTypeOf m2) t)
        | none => false) = false := by
    rw [ht2]
    simp only [List.any_cons, List.any_nil, Bool.or_false, Bool.and_eq_false_iff]
    right
    unfold isContentDup
    rw [ht1]
    simp only [Bool.and_eq_false_iff, decide_eq_false_iff_not, not_le]
    right
    exact hfar
  rw [hdup]
  simp

theorem addMessageToChat_cases (chats : Chats) (jid : String) (msg : Message) :
    addMessageToChat chats jid msg = (chats, false) ∨
    ((addMessage (chats jid) msg).2 = true ∧
      addMessageToChat chats jid msg =
        ((fun j => if j = jid then chats jid ++ [msg] else chats j), true)) := by
  rcases addMessage_cases (chats jid) msg with h' | h'
  · left
    unfold addMessageToChat
    rw [h']
    rfl
  · right
    constructor
    · rw [h']
    · unfold addMessageToChat
      rw [h']
      rfl

/-- C1 (amended): within one conversation, a candidate whose NON-EMPTY trimmed
content, direction and kind coincide with a stored message's and whose validly
parsing timestamp lies within 8000 ms of the stored one is rejected and the
list is unchanged; and from an empty conversation, two such candidates with
DISTINCT ids whose timestamps are more than 8000 ms apart are both accepted.
(The claim as literally stated fails when the shared trimmed content is empty,
and its second half fails when the two candidates share an id; see the
counterexample.) -/
theorem near_duplicate_suppression :
    (∀ (s : List Message) (m1 m2 : Message) (t1 t2 : Int),
        m1 ∈ s → msgContentOf m1 = msgContentOf m2 → msgContentOf m2 ≠ "" →
        msgDirectionOf m1 = msgDirectionOf m2 → msgSubTypeOf m1 = msgSubTypeOf m2 →
        m1.ts = some t1 → m2.ts = some t2 → (t1 - t2).natAbs ≤ 8000 →
        addMessage s m2 = (s, false))
    ∧
    (∀ (m1 m2 : Message) (t1 t2 : Int),
        m2.id ≠ m1.id → m1.ts = some t1 → m2.ts = some t2 →
        8000 < (t1 - t2).natAbs →
        addMessage [] m1 = ([m1], true) ∧ addMessage [m1] m2 = ([m1, m2], true)) := by
  constructor
  · intro s m1 m2 t1 t2 h1 hc hcne hd hk ht1 ht2 hw
    exact addMessage_content_dup_rejected s m1 m2 t1 t2 h1 hc hcne hd hk ht1 ht2 hw
  · intro m1 m2 t1 t2 hid ht1 ht2 hfar
    exact ⟨addMessage_nil m1, addMessage_far_apart m1 m2 t1 t2 hid ht1 ht2 hfar⟩

/-- Stored message used for the C1 witness. -/
def w1a : Message := ⟨"a", some "hello", some "received", some "chat", some 0, false, false⟩

/-- Near-duplicate candidate (3 s later) used for the C1 witness. -/
def w1b : Message := ⟨"b", some "hello", some "received", some "chat", some 3000, false, false⟩

/-- Far-apart candidate (9 s later) used for the C1 witness. -/
def w1c : Message := ⟨"b", some "hello", some "received", some "chat", some 9000, false, false⟩

/-- Concrete instantiation of `near_duplicate_suppression`: identical content
3 s apart is rejected, 9 s apart is accepted. -/
theorem near_duplicate_suppression_witness :
    addMessage [w1a] w1b = ([w1a], false) ∧ addMessage [w1a] w1c = ([w1a, w1c], true) := by
  constructor
  · exact near_duplicate_suppression.1 [w1a] w1a w1b 0 3000 (List.mem_singleton_self _)
      rfl (by decide) rfl rfl rfl rfl (by decide)
  · exact (near_duplicate_suppression.2 w1a w1c 0 9000 (by decide) rfl rfl (by decide)).2

/-- First whitespace-content candidate for the C1 counterexample. -/
def x1a : Message := ⟨"a", some " ", some "received", some "chat", some 0, false, false⟩

/-- Second whitespace-content candidate for the C1 counterexample. -/
def x1b : Message := ⟨"b", some " ", some "received", some "chat", some 0, false, false⟩

/-- C1 counterexample: two candidates with identical trimmed content (both
`" "`, trimming to `""`), identical direction and kind, equal validly-parsing
timestamps; after the first is accepted the second is ALSO accepted (returns
`true` and the list grows), contradicting the claim as stated, because the
content-duplicate scan is skipped for content that trims to the empty string. -/
theorem near_duplicate_suppression_counterexample :
    msgContentOf x1a = msgContentOf x1b
    ∧ msgDirectionOf x1a = msgDirectionOf x1b
    ∧ msgSubTypeOf x1a = msgSubTypeOf x1b
    ∧ x1a.ts = some 0 ∧ x1b.ts = some 0 ∧ ((0 : Int) - 0).natAbs ≤ 8000
    ∧ addMessage [] x1a = ([x1a], true)
    ∧ addMessage [x1a] x1b = ([x1a, x1b], true) := by
  refine ⟨rfl, rfl, rfl, rfl, rfl, by decide, rfl, rfl⟩

/-- C2 (amended): re-inserting an already stored message with a NON-EMPTY id
returns `false` and leaves the whole persisted store untouched.  (As literally
stated the claim fails for a stored message whose id is the empty string,
which JavaScript treats as falsy and therefore skips the id check; see the
counterexample.) -/
theorem idempotent_insert (chats : Chats) (jid : String) (m : Message)
    (hm : m ∈ chats jid) (hid : m.id ≠ "") :
    addMessageToChat chats jid m = (chats, false) := by
  have h := addMessage_mem_id_rejected (chats jid) m m hm rfl hid
  unfold addMessageToChat
  rw [h]
  rfl

/-- Stored message used for the C2 witness. -/
def w2 : Message := ⟨"a", some "hi", some "sent", some "chat", some 5, false, false⟩

/-- Store holding `w2`, used for the C2 witness. -/
def w2chats : Chats := fun _ => [w2]

/-- Concrete instantiation of `idempotent_insert`. -/
theorem idempotent_insert_witness :
    addMessageToChat w2chats "77@c.us" w2 = (w2chats, false) :=
  idempotent_insert w2chats "77@c.us" w2 (List.mem_singleton_self _) (by decide)

/-- Empty-id message used for the C2 counterexample. -/
def x2 : Message := ⟨"", none, none, none, none, false, false⟩

/-- C2 counterexample: a message whose id is the empty string is accepted
twice — the second call returns `true` and the stored list length changes,
contradicting the claim as stated. -/
theorem idempotent_insert_counterexample :
    (addMessageToChat emptyChats "c" x2).2 = true
    ∧ (addMessageToChat emptyChats "c" x2).1 "c" = [x2]
    ∧ (addMessageToChat (addMessageToChat emptyChats "c" x2).1 "c" x2).2 = true
    ∧ (addMessageToChat (addMessageToChat emptyChats "c" x2).1 "c" x2).1 "c" = [x2, x2] := by
  refine ⟨rfl, rfl, rfl, rfl⟩

/-- C3 (amended): every store state reachable from the empty store by
`addMessageToChat` calls has, within each conversation, pairwise-distinct
message ids AMONG MESSAGES WITH NON-EMPTY ids: two stored messages can share
an id only when that id is the empty string, which the gate's id check skips
as falsy (see the counterexample). -/
theorem unique_ids_invariant (c : Chats) (h : Reachable c) :
    ∀ jid, (c jid).Pairwise (fun a b => a.id = b.id → a.id = "") := by
  induction h with
  | empty => intro _; exact List.Pairwise.nil
  | step c0 jid0 m _ ih =>
    intro jid
    rcases addMessageToChat_cases c0 jid0 m with h' | ⟨hacc, h'⟩ <;> rw [h']
    · exact ih jid
    · have hb : ((fun j => if j = jid0 then c0 jid0 ++ [m] else c0 j, true) :
          Chats × Bool).1 jid = if jid = jid0 then c0 jid0 ++ [m] else c0 jid := rfl
      rw [hb]
      by_cases hj : jid = jid0
      · subst hj
        rw [if_pos rfl, List.pairwise_append]
        refine ⟨ih jid, List.pairwise_singleton _ _, ?_⟩
        intro a ha b hb'
        rw [List.mem_singleton] at hb'
        rw [hb']
        intro hab
        by_cases hm : m.id = ""
        · rw [hab, hm]
        · exact absurd hab (addMessage_accepted_id (c0 jid) m hacc hm a ha)
      · rw [if_neg hj]
        exact ih jid

/-- Message used for the C3 witness. -/
def w3 : Message := ⟨"w1", some "yo", some "sent", some "chat", some 1, false, false⟩

/-- Concrete instantiation of `unique_ids_invariant` at a one-step reachable store. -/
theorem unique_ids_invariant_witness :
    ((addMessageToChat emptyChats "w" w3).1 "w").Pairwise
      (fun a b => a.id = b.id → a.id = "") :=
  unique_ids_invariant _ (Reachable.step _ "w" w3 Reachable.empty) "w"

/-- First empty-id message for the C3 counterexample. -/
def x3a : Message := ⟨"", some "x", some "received", some "chat", some 0, false, false⟩

/-- Second empty-id message for the C3 counterexample. -/
def x3b : Message := ⟨"", some "y", some "received", some "chat", some 0, false, false⟩

/-- C3 counterexample: from the empty store, two DISTINCT messages that both
carry the empty-string id are accepted into the same conversation, so a
reachable store holds two stored messages sharing an id, contradicting the
invariant as stated. -/
theorem unique_ids_invariant_counterexample :
    (addMessageToChat (addMessageToChat emptyChats "c" x3a).1 "c" x3b).1 "c" = [x3a, x3b]
    ∧ x3a.id = x3b.id ∧ x3a ≠ x3b := by
  refine ⟨rfl, rfl, by decide⟩

/-! Message deletion (`deleteMessageFromChat`, its partial-id-match variant,
and the delete-message HTTP route that chains them). -/

/-- Everything after the first `'_'` of the string (empty when there is none).
This is the source expression `s.split('_').slice(1).join('_')`: dropping the
first underscore-separated segment and re-joining the rest with `'_'` returns
exactly the text following the first underscore. -/
def afterFirstUnderscore : List Char → List Char
  | [] => []
  | c :: t => if c = '_' then t else afterFirstUnderscore t

/-- `s.split('_').slice(1).join('_')` (see `afterFirstUnderscore`). -/
def afterFirstSegment (s : String) : String :=
  String.mk (afterFirstUnderscore s.toList)

/-- Keep-predicate of the filter inside the partial-id-match delete
(source function `deleteMessageFromChatPartial`): a stored message is REMOVED
when its id equals the requested id, or when one of the two ids contains the
other's portion after the first underscore-separated segment. -/
def keepOnFuzzyDelete (messageId : String) (m : Message) : Bool :=
  if m.id == messageId then false
  else
    !(jsIncludes m.id (afterFirstSegment messageId)
      || jsIncludes messageId (afterFirstSegment m.id))

/-- `deleteMessageFromChat(chatId, messageId)` restricted to the conversation's
list: removes exact-id matches; returns whether anything was removed (the
store is rewritten only in that case). -/
def deleteMessageFromChat (msgs : List Message) (messageId : String) :
    List Message × Bool :=
  if (msgs.filter (fun m => !(m.id == messageId))).length < msgs.length then
    (msgs.filter (fun m => !(m.id == messageId)), true)
  else
    (msgs, false)

/-- The partial-id-match delete (source function `deleteMessageFromChatPartial`),
restricted to the conversation's list. -/
def deleteMessageFromChatFuzzy (msgs : List Message) (messageId : String) :
    List Message × Bool :=
  if (msgs.filter (keepOnFuzzyDelete messageId)).length < msgs.length then
    (msgs.filter (keepOnFuzzyDelete messageId), true)
  else
    (msgs, false)

/-- The `DELETE /api/delete-message/:chatId/:messageId` route body: exact-id
delete first, partial-id-match delete as fallback; `false` in the second
component is the route's 404 "Message not found" outcome. -/
def deleteMessageRoute (msgs : List Message) (messageId : String) :
    List Message × Bool :=
  if (deleteMessageFromChat msgs messageId).2 then
    deleteMessageFromChat msgs messageId
  else
    deleteMessageFromChatFuzzy msgs messageId

theorem startsSeq_self (l : List Char) : startsSeq l l = true := by
  induction l with
  | nil => rfl
  | cons a t ih => simp [startsSeq, ih]

theorem containsSeq_self (l : List Char) : containsSeq l l = true := by
  cases l with
  | nil => rfl
  | cons a t => simp [containsSeq, startsSeq_self]

theorem containsSeq_afterFirstUnderscore (l : List Char) :
    containsSeq (afterFirstUnderscore l) l = true := by
  induction l with
  | nil => rfl
  | cons c t ih =>
    unfold afterFirstUnderscore
    by_cases hc : c = '_'
    · rw [if_pos hc]
      simp [containsSeq, containsSeq_self]
    · rw [if_neg hc]
      simp [containsSeq, ih]

theorem jsIncludes_afterFirstSegment (s : String) :
    jsIncludes s (afterFirstSegment s) = true := by
  unfold jsIncludes afterFirstSegment
  exact containsSeq_afterFirstUnderscore s.toList

theorem length_filter_lt_of_mem {α : Type} {p : α → Bool} {l : List α} {a : α}
    (ha : a ∈ l) (hpa : p a = false) : (l.filter p).length < l.length := by
  induction l with
  | nil => cases ha
  | cons b t ih =>
    rw [List.filter_cons]
    rcases List.mem_cons.mp ha with rfl | hat
    · rw [hpa]
      simp only [Bool.false_eq_true, if_false, List.length_cons]
      exact Nat.lt_succ_of_le (List.length_filter_le _ _)
    · by_cases hb : p b
      · rw [if_pos hb]
        simpa using ih hat
      · rw [if_neg hb]
        exact Nat.lt_succ_of_lt (ih hat)

/-- C9 (amended): when the requested id has no exact match in the conversation,
the route's partial-match fallback deletes successfully whenever some stored
message's id shares the requested id's full portion after the first
underscore-separated segment (more generally, the source removes a message iff
one id contains the other's after-first-segment portion).  The claim's own
example — stored `"msg_456_abc"`, requested `"msg_123_abc"`, sharing only the
final `"abc"` — does NOT match and the delete fails; see the counterexample. -/
theorem delete_by_fuzzy_id (msgs : List Message) (messageId : String) (m : Message)
    (hmem : m ∈ msgs) (hnoexact : ∀ x ∈ msgs, x.id ≠ messageId)
    (hshare : afterFirstSegment m.id = afterFirstSegment messageId) :
    (deleteMessageRoute msgs messageId).2 = true := by
  have hexact : (deleteMessageFromChat msgs messageId).2 = false := by
    unfold deleteMessageFromChat
    have hself : msgs.filter (fun m => !(m.id == messageId)) = msgs :=
      List.filter_eq_self.mpr fun a ha => by
        simpa using hnoexact a ha
    rw [hself]
    simp
  have hkeep : keepOnFuzzyDelete messageId m = false := by
    unfold keepOnFuzzyDelete
    rw [if_neg (by simpa using hnoexact m hmem)]
    rw [← hshare, jsIncludes_afterFirstSegment]
    rfl
  have hlt : (msgs.filter (keepOnFuzzyDelete messageId)).length < msgs.length :=
    length_filter_lt_of_mem hmem hkeep
  unfold deleteMessageRoute
  rw [hexact]
  simp only [Bool.false_eq_true, if_false]
  unfold deleteMessageFromChatFuzzy
  rw [if_pos hlt]

/-- Stored message used for the C9 witness: its id shares the full
after-first-segment portion `"123_abc"` with the requested id. -/
def w9 : Message := ⟨"wa_123_abc", some "t", some "sent", some "chat", some 0, false, false⟩

/-- Concrete instantiation of `delete_by_fuzzy_id`: requesting deletion of
`"msg_123_abc"` when the stored id is `"wa_123_abc"` succeeds via partial match. -/
theorem delete_by_fuzzy_id_witness :
    (deleteMessageRoute [w9] "msg_123_abc").2 = true :=
  delete_by_fuzzy_id [w9] "msg_123_abc" w9 (List.mem_singleton_self _)
    (by decide) (by decide)

/-- Stored message for the C9 counterexample. -/
def x9 : Message := ⟨"msg_456_abc", some "t", some "sent", some "chat", some 0, false, false⟩

/-- C9 counterexample: with stored id `"msg_456_abc"`, the delete request for
`"msg_123_abc"` fails — the route returns `false` (HTTP 404) and removes
nothing, contradicting the claim's assertion that this pair succeeds via
partial/suffix match: the code compares the full after-first-segment portions
(`"456_abc"` vs `"123_abc"`), not the final `"abc"` segment. -/
theorem delete_by_fuzzy_id_counterexample :
    deleteMessageRoute [x9] "msg_123_abc" = ([x9], false) := by
  rfl

/-! Mode registry and assistant-instruction settings (`state.json` and `.env`). -/

/-- The application state persisted in `state.json` (`readState` defaults:
`chatModes` empty, `lastChatTime` absent).  `lastChatTime` values are the
millisecond parses of the stored ISO strings. -/
structure AppState where
  chatModes : String → Option String
  aiInstruction : String
  lastChatTime : String → Option Int

/-- `getChatMode(jid)`: `state.chatModes[jid] || 'A'`. -/
def getChatMode (st : AppState) (jid : String) : String :=
  jsOrStr (st.chatModes jid) "A"

/-- `setChatMode(jid, mode)`. -/
def setChatMode (st : AppState) (jid mode : String) : AppState :=
  { st with chatModes := fun j => if j = jid then some mode else st.chatModes j }

/-- `setAIInstruction(instruction)`: read state, set the `aiInstruction`
field, write state back. -/
def setAIInstruction (st : AppState) (instruction : String) : AppState :=
  { st with aiInstruction := instruction }

/-- `line.replace(/"/g, '')`. -/
def stripQuotes (s : String) : String :=
  String.mk (s.toList.filter (fun c => c ≠ '"'))

/-- The two `.env` entries `getAIInstruction` reads. -/
structure EnvSettings where
  aiTraining : String
  aiSchedule : String
  deriving DecidableEq, Repr

/-- The `.env` scan inside `getAIInstruction`.  NOTE the source calls
`line.substring('AI_TRAINING=')` — `substring` with a STRING argument coerces
it to `NaN`, which is treated as index 0, so the WHOLE line (prefix included)
is kept; only the quote-stripping and trim are applied.  Later matching lines
overwrite earlier ones, as reassignment does in the source's `forEach`. -/
def readEnvSettings (lines : List String) : EnvSettings :=
  lines.foldl
    (fun acc line =>
      let acc1 :=
        if jsStartsWith line "AI_TRAINING=" then
          { acc with aiTraining := jsTrim (stripQuotes line) }
        else acc
      if jsStartsWith line "AI_SCHEDULE=" then
        { acc1 with aiSchedule := jsTrim (stripQuotes line) }
      else acc1)
    ⟨"", ""⟩

/-- Wall-clock inputs of `getAIInstruction`: the formatted day / time strings
and the numeric `getHours()` / `getMinutes()` values. -/
structure NowInfo where
  dayName : String
  timeString : String
  hours : Nat
  minutes : Nat

/-- `parseInt` on a non-empty digit string (the regex captures below). -/
def digitsVal (cs : List Char) : Nat :=
  cs.foldl (fun a c => a * 10 + (c.toNat - 48)) 0

/-- Anchored match of the regex fragment `\d{1,2}:\d{2}` at the head of the
list; returns the two digit captures and the rest.  (The regex needs no
backtracking here: after two digits a `':'` is forced, since the only shorter
alternative would require the second digit to be `':'`.) -/
def matchHMAt : List Char → Option (List Char × List Char × List Char)
  | a :: b :: c :: d :: e :: rest =>
    if a.isDigit then
      if b.isDigit then
        if c == ':' && d.isDigit && e.isDigit then some ([a, b], [d, e], rest) else none
      else if b = ':' then
        if c.isDigit && d.isDigit then some ([a], [c, d], e :: rest) else none
      else none
    else none
  | [a, b, c, d] =>
    if a.isDigit then
      if b.isDigit then none
      else if b = ':' then
        if c.isDigit && d.isDigit then some ([a], [c, d], []) else none
      else none
    else none
  | _ => none

/-- Leftmost search for `\d{1,2}:\d{2}` (the regex of
`convert24HourTimeToMinutes`). -/
def searchHM : List Char → Option (List Char × List Char)
  | [] => none
  | c :: t =>
    match matchHMAt (c :: t) with
    | some (h, m, _) => some (h, m)
    | none => searchHM t

/-- `convert24HourTimeToMinutes(timeStr)`: first `(\d{1,2}):(\d{2})` match as
minutes-since-midnight, `0` when there is no match. -/
def convert24HourTimeToMinutes (timeStr : String) : Nat :=
  match searchHM timeStr.toList with
  | some (h, m) => digitsVal h * 60 + digitsVal m
  | none => 0

/-- The separator character class of the time-range regex.  In the source it
is the three-byte UTF-8 mojibake of an en dash, giving the four characters
`-`, `â`, `€`, `“`. -/
def isDashChar (c : Char) : Bool :=
  c = '-' || c = 'â' || c = '€' || c = '“'

/-- Anchored match of `(\d{1,2}:\d{2})\s*[dash]\s*(\d{1,2}:\d{2})`, returning
the two time captures as strings. -/
def matchRangeAt (l : List Char) : Option (String × String) :=
  match matchHMAt l with
  | none => none
  | some (h1, m1, rest) =>
    match rest.dropWhile Char.isWhitespace with
    | [] => none
    | d :: rest2 =>
      if isDashChar d then
        match matchHMAt (rest2.dropWhile Char.isWhitespace) with
        | some (h2, m2, _) =>
          some (String.mk (h1 ++ ':' :: m1), String.mk (h2 ++ ':' :: m2))
        | none => none
      else none

/-- Leftmost search for the time-range regex (JS `timeRange.match(...)`). -/
def searchRange : List Char → Option (String × String)
  | [] => none
  | c :: t =>
    match matchRangeAt (c :: t) with
    | some r => some r
    | none => searchRange t

/-- One iteration of `getAIInstruction`'s schedule loop, acting on the pair
(currentActivity, scheduleContext).  The source splits the trimmed line on
`':'` FIRST, takes `parts[0]` as the candidate time range and rejoins the rest
as the activity, then applies the time-range regex to `parts[0]`. -/
def scheduleStep (cur : Nat) (acc : String × String) (line : String) :
    String × String :=
  if !(jsTrim line == "") && jsIncludes (jsTrim line) ":" then
    match jsSplitChar (jsTrim line) ':' with
    | p0 :: p1 :: prest =>
      ((match searchRange (jsTrim p0).toList with
        | some (startTime, endTime) =>
          if convert24HourTimeToMinutes startTime ≤ cur ∧
              cur ≤ convert24HourTimeToMinutes endTime then
            jsTrim (jsJoin ":" (p1 :: prest))
          else acc.1
        | none => acc.1),
       acc.2 ++ " " ++ jsTrim p0 ++ ": " ++ jsTrim (jsJoin ":" (p1 :: prest)) ++ ". ")
    | _ => acc
  else acc

/-- The schedule loop of `getAIInstruction` over the lines of the (already
extracted) `AI_SCHEDULE` value, starting from activity `"Available"`. -/
def scheduleFold (aiSchedule : String) (cur : Nat) (ctx0 : String) : String × String :=
  (jsSplitChar aiSchedule '\n').foldl (scheduleStep cur) ("Available", ctx0)

/-- The `currentActivity` computed by `getAIInstruction`'s schedule loop. -/
def scheduleCurrentActivity (aiSchedule : String) (cur : Nat) : String :=
  (scheduleFold aiSchedule cur "").1

/-- The generic fallback instruction of `getAIInstruction`. -/
def DEFAULT_INSTRUCTION : String :=
  "You are Ava, an AI assistant. Respond professionally, politely, and concisely."

/-- `getAIInstruction()`: reads ONLY the `.env` lines and the wall clock —
base training text (or the default), then, when a schedule is configured, the
current-context clause, the schedule echo, the computed current activity and
an activity-dependent guidance sentence. -/
def getAIInstruction (envLines : List String) (now : NowInfo) : String :=
  let settings := readEnvSettings envLines
  let baseInstruction :=
    if settings.aiTraining = "" then DEFAULT_INSTRUCTION else settings.aiTraining
  if settings.aiSchedule = "" then
    baseInstruction
  else
    let scheduleContext0 :=
      "\n\nCurrent Context: Today is " ++ now.dayName ++ ". Current time is "
        ++ now.timeString ++ "."
    let folded := scheduleFold settings.aiSchedule (now.hours * 60 + now.minutes)
      scheduleContext0
    let scheduleContext1 := folded.2 ++ "\n\nCurrent Status: Currently " ++ folded.1 ++ "."
    let scheduleContext2 := scheduleContext1 ++
      (if jsIncludes folded.1 "Study" || jsIncludes folded.1 "Homework"
          || jsIncludes folded.1 "Programming" || jsIncludes folded.1 "Coding" then
        " The user is busy. Tell when they will be free. Ask if urgent."
      else if jsIncludes folded.1 "School" then
        " The user is at school. Will reply later."
      else if jsIncludes folded.1 "Sleep" then
        " The user is sleeping. Will reply in the morning."
      else
        " The user is available.")
    baseInstruction ++ scheduleContext2

/-- Whole-system state: the persisted `state.json` plus the `.env` file
(as its list of lines). -/
structure SystemState where
  appState : AppState
  envLines : List String

/-- The system-level view of `getAIInstruction`: it reads the `.env` file only. -/
def getAIInstructionSys (sys : SystemState) (now : NowInfo) : String :=
  getAIInstruction sys.envLines now

/-- The system-level view of `setAIInstruction`: it writes `state.json` only. -/
def setAIInstructionSys (sys : SystemState) (instruction : String) : SystemState :=
  { sys with appState := setAIInstruction sys.appState instruction }

/-- C10: `getAIInstruction` is independent of any prior `setAIInstruction`
call — the setter does write the persisted `aiInstruction` field (second
conjunct), but the getter derives its result solely from the `.env` lines and
the clock and never reads that field. -/
theorem instruction_get_independent_of_set (sys : SystemState) (s : String)
    (now : NowInfo) :
    getAIInstructionSys (setAIInstructionSys sys s) now = getAIInstructionSys sys now
    ∧ (setAIInstructionSys sys s).appState.aiInstruction = s :=
  ⟨rfl, rfl⟩

/-! The schedule loop can in fact never find a current activity: the regex is
applied to `parts[0]` of the split on `':'`, which cannot contain a `':'`. -/

theorem jsTrim_toList_subset (s : String) : ∀ c ∈ (jsTrim s).toList, c ∈ s.toList := by
  intro c hc
  have hc0 : (jsTrim s).toList =
      ((s.toList.dropWhile Char.isWhitespace).reverse.dropWhile Char.isWhitespace).reverse := rfl
  rw [hc0] at hc
  have hc1 := List.mem_reverse.mp hc
  have hc2 := (List.dropWhile_sublist _).subset hc1
  have hc3 := List.mem_reverse.mp hc2
  exact (List.dropWhile_sublist _).subset hc3

theorem splitCharAux_head_no_sep (sep : Char) :
    ∀ (l acc h0 : List Char) (rest : List (List Char)),
      (∀ c ∈ acc, c ≠ sep) → splitCharAux sep l acc = h0 :: rest →
      ∀ c ∈ h0, c ≠ sep := by
  intro l
  induction l with
  | nil =>
    intro acc h0 rest hacc h
    unfold splitCharAux at h
    injection h with h1 _
    intro c hc
    exact hacc c (List.mem_reverse.mp (h1 ▸ hc))
  | cons a t ih =>
    intro acc h0 rest hacc h
    unfold splitCharAux at h
    by_cases hs : a = sep
    · rw [if_pos hs] at h
      injection h with h1 _
      intro c hc
      exact hacc c (List.mem_reverse.mp (h1 ▸ hc))
    · rw [if_neg hs] at h
      refine ih (a :: acc) h0 rest ?_ h
      intro c hc
      rcases List.mem_cons.mp hc with rfl | hc2
      · exact hs
      · exact hacc c hc2

theorem jsSplitChar_head_no_sep (s : String) (sep : Char) (p0 : String)
    (rest : List String) (h : jsSplitChar s sep = p0 :: rest) :
    ∀ c ∈ p0.toList, c ≠ sep := by
  unfold jsSplitChar at h
  cases hsp : splitCharAux sep s.toList [] with
  | nil => rw [hsp] at h; simp at h
  | cons l0 ls =>
    rw [hsp] at h
    simp only [List.map_cons] at h
    injection h with h1 _
    intro c hc
    have ht : p0.toList = l0 := h1 ▸ rfl
    rw [ht] at hc
    exact splitCharAux_head_no_sep sep s.toList [] l0 ls (by intro c hc'; cases hc') hsp c hc

theorem matchHMAt_colon (l : List Char) (r : List Char × List Char × List Char)
    (h : matchHMAt l = some r) : ':' ∈ l := by
  rcases l with _ | ⟨a, _ | ⟨b, _ | ⟨c, _ | ⟨d, _ | ⟨e, rest⟩⟩⟩⟩⟩
  · simp [matchHMAt] at h
  · simp [matchHMAt] at h
  · simp [matchHMAt] at h
  · simp [matchHMAt] at h
  · simp only [matchHMAt] at h
    split_ifs at h with h1 h2 h3 h4
    all_goals try simp at h
    subst h3
    simp
  · simp only [matchHMAt] at h
    split_ifs at h with h1 h2 h3 h4 h5
    all_goals try simp at h
    · have hc : c = ':' := by
        have := (Bool.and_eq_true _ _).mp h3
        exact beq_iff_eq.mp ((Bool.and_eq_true _ _).mp this.1).1
      subst hc
      simp
    · subst h4
      simp

theorem matchRangeAt_colon (l : List Char) (r : String × String)
    (h : matchRangeAt l = some r) : ':' ∈ l := by
  unfold matchRangeAt at h
  cases hm : matchHMAt l with
  | none => rw [hm] at h; simp at h
  | some trip => exact matchHMAt_colon l trip hm

theorem searchRange_colon (l : List Char) (r : String × String)
    (h : searchRange l = some r) : ':' ∈ l := by
  induction l with
  | nil => simp [searchRange] at h
  | cons c t ih =>
    unfold searchRange at h
    cases hm : matchRangeAt (c :: t) with
    | some r2 => exact matchRangeAt_colon _ _ hm
    | none =>
      rw [hm] at h
      exact List.mem_cons_of_mem _ (ih h)

theorem scheduleStep_fst (cur : Nat) (acc : String × String) (line : String) :
    (scheduleStep cur acc line).1 = acc.1 := by
  unfold scheduleStep
  split
  · split
    · next p0 p1 prest heq =>
      have hnone : searchRange (jsTrim p0).toList = none := by
        cases hsr : searchRange (jsTrim p0).toList with
        | none => rfl
        | some r =>
          exfalso
          have hcol : ':' ∈ (jsTrim p0).toList := searchRange_colon _ _ hsr
          have hcol2 : ':' ∈ p0.toList := jsTrim_toList_subset p0 ':' hcol
          exact jsSplitChar_head_no_sep (jsTrim line) ':' p0 (p1 :: prest) heq ':' hcol2 rfl
      simp only [hnone]
    · rfl
  · rfl

theorem scheduleFold_fst (cur : Nat) :
    ∀ (lines : List String) (acc : String × String),
      (lines.foldl (scheduleStep cur) acc).1 = acc.1 := by
  intro lines
  induction lines with
  | nil => intro _; rfl
  | cons l t ih =>
    intro acc
    rw [List.foldl_cons, ih (scheduleStep cur acc l), scheduleStep_fst cur acc l]

/-- The schedule loop's computed activity is constantly `"Available"`: no
schedule text and no wall-clock time can ever produce a different activity. -/
theorem scheduleCurrentActivity_const (sched : String) (cur : Nat) :
    scheduleCurrentActivity sched cur = "Available" := by
  unfold scheduleCurrentActivity scheduleFold
  exact scheduleFold_fst cur (jsSplitChar sched '\n') ("Available", "")

/-- The `.env` lines of the C6 failing input. -/
def c6env : List String := ["AI_TRAINING=T", "AI_SCHEDULE=09:00-12:00: Coding"]

/-- The C6 failing wall-clock: 10:30, inside the 09:00–12:00 range. -/
def c6now : NowInfo := ⟨"Monday", "10:30", 10, 30⟩

/-- C6: the schedule line `"09:00-12:00: Coding"` at 10:30 (630 minutes) does
NOT resolve to `"Coding"` — the derived activity is always `"Available"`,
because the source splits the line on `':'` BEFORE applying the
`HH:MM-HH:MM` regex to `parts[0]`, and that first split segment can never
contain the `':'` the regex requires (additionally, the `.env` extraction
keeps the literal `AI_SCHEDULE=` prefix).  The time parser itself is fine
(last conjunct), so the claim describes the evident intent and the code is
the slip. -/
theorem schedule_resolution_broken :
    scheduleCurrentActivity "09:00-12:00: Coding" 630 = "Available"
    ∧ scheduleCurrentActivity (readEnvSettings c6env).aiSchedule 630 = "Available"
    ∧ jsIncludes (getAIInstruction c6env c6now) "Currently Available." = true
    ∧ jsIncludes (getAIInstruction c6env c6now) "Coding" = true
    ∧ jsIncludes (getAIInstruction c6env c6now) "Currently Coding." = false
    ∧ jsIncludes (getAIInstruction c6env c6now) "The user is available." = true
    ∧ jsIncludes (getAIInstruction c6env c6now) "The user is busy" = false
    ∧ convert24HourTimeToMinutes "09:00" = 540
    ∧ convert24HourTimeToMinutes "12:00" = 720
    ∧ (∀ (sched : String) (cur : Nat), scheduleCurrentActivity sched cur = "Available") := by
  refine ⟨rfl, rfl, rfl, rfl, rfl, rfl, rfl, rfl, rfl, scheduleCurrentActivity_const⟩

/-! The WebSocket `send` handler (outbound text sends, Assisted-mode rewrite)
and the Autonomous-mode auto-reply of the inbound `onMessage` handler. -/

/-- A live-viewer push payload (`payloadForWs`).  The contact-lookup fields
(`contactName`, `contactProfilePicUrl`), which come from an external provider
query and carry no pipeline logic, are omitted. -/
structure WsPayload where
  fromJid : String
  subType : String
  content : String
  timestampMs : Int
  direction : String
  id : String
  isOriginalInSemiAI : Bool := false
  isAIRewrite : Bool := false
  deriving DecidableEq, Repr

/-- Inputs of one `msg.type === 'send'` handler invocation.  `llm` is the
outcome of the `getAIReply` rewrite call: `some r` when it returned `r`,
`none` when it threw (transport error or the 15 s timeout) — the handler's
`catch` then keeps the original text.  `nowMs` / `aiNowMs` are the parses of
the two `new Date().toISOString()` timestamps, and `aiIdSuffix` the generated
`${Date.now()}_${random}` tail of the rewrite record id. -/
structure SendInput where
  toJid : String
  msgId : String
  message : String
  isRewrittenPreview : Bool
  llm : Option String
  nowMs : Int
  aiNowMs : Int
  aiIdSuffix : String
  deriving DecidableEq, Repr

/-- Observable effects of one `send` handler invocation: the text handed to
the provider `sendText`, the records passed to `addMessageToChat` in order,
the broadcast payloads in order, and the resulting store. -/
structure SendEffects where
  providerText : String
  storeCalls : List Message
  broadcasts : List WsPayload
  chats : Chats

/-- The Assisted-mode rewrite acceptance test: non-empty after trim, trimmed
length at most 1.5× the original length (`2·len ≤ 3·L` is the exact integer
form of `len ≤ L * 1.5`), and none of the three blacklisted filler phrases in
the lowercased rewrite. -/
def rewriteGuardOk (originalMessage rewritten : String) : Bool :=
  !(jsTrim rewritten == "")
    && decide (2 * (jsTrim rewritten).length ≤ 3 * originalMessage.length)
    && !(jsIncludes (jsToLower rewritten) "i\x27d be happy")
    && !(jsIncludes (jsToLower rewritten) "i can help")
    && !(jsIncludes (jsToLower rewritten) "here is")

/-- The `finalMessage` of the send handler: in mode `'B'` without the
`is_rewritten_preview` flag, the trimmed rewrite when the guard accepts it
(and when the LLM call did not fail), otherwise the original text. -/
def assistedFinalMessage (mode : String) (inp : SendInput) : String :=
  if mode == "B" && !inp.isRewrittenPreview then
    match inp.llm with
    | some rewritten =>
      if rewriteGuardOk inp.message rewritten then jsTrim rewritten else inp.message
    | none => inp.message
  else inp.message

/-- `originalMessageForDb` of the send handler. -/
def originalRecordOf (mode : String) (inp : SendInput) : Message :=
  { id := inp.msgId, subType := some "chat", content := some inp.message,
    ts := some inp.nowMs, direction := some "sent",
    isOriginalInSemiAI := mode == "B", isAIRewrite := false }

/-- `originalPayloadForWs` of the send handler. -/
def originalPayloadOf (mode : String) (inp : SendInput) : WsPayload :=
  { fromJid := inp.toJid, subType := "chat", content := inp.message,
    timestampMs := inp.nowMs, direction := "sent", id := inp.msgId,
    isOriginalInSemiAI := mode == "B", isAIRewrite := false }

/-- `aiMessageForDb` of the send handler (built only when the final text
differs from the original). -/
def aiRecordOf (inp : SendInput) (finalText : String) : Message :=
  { id := "ai_rewrite_" ++ inp.aiIdSuffix, subType := some "chat",
    content := some finalText, ts := some inp.aiNowMs, direction := some "sent",
    isOriginalInSemiAI := false, isAIRewrite := true }

/-- `aiPayloadForWs` of the send handler. -/
def aiPayloadOf (inp : SendInput) (finalText : String) : WsPayload :=
  { fromJid := inp.toJid, subType := "chat", content := finalText,
    timestampMs := inp.aiNowMs, direction := "sent",
    id := "ai_rewrite_" ++ inp.aiIdSuffix,
    isOriginalInSemiAI := false, isAIRewrite := true }

/-- The `msg.type === 'send'` handler: compute the final text (Assisted-mode
rewrite path), always store-and-broadcast the original first, send the final
text to the provider (the retry loop over jid suffixes is modelled as the
single payload text), and — exactly when the final text differs from the
original — store-and-broadcast a second `isAIRewrite` record. -/
def sendTextHandler (st : AppState) (chats : Chats) (inp : SendInput) : SendEffects :=
  if assistedFinalMessage (getChatMode st inp.toJid) inp ≠ inp.message then
    { providerText := assistedFinalMessage (getChatMode st inp.toJid) inp,
      storeCalls := [originalRecordOf (getChatMode st inp.toJid) inp,
        aiRecordOf inp (assistedFinalMessage (getChatMode st inp.toJid) inp)],
      broadcasts := [originalPayloadOf (getChatMode st inp.toJid) inp,
        aiPayloadOf inp (assistedFinalMessage (getChatMode st inp.toJid) inp)],
      chats := (addMessageToChat
        (addMessageToChat chats inp.toJid (originalRecordOf (getChatMode st inp.toJid) inp)).1
        inp.toJid (aiRecordOf inp (assistedFinalMessage (getChatMode st inp.toJid) inp))).1 }
  else
    { providerText := assistedFinalMessage (getChatMode st inp.toJid) inp,
      storeCalls := [originalRecordOf (getChatMode st inp.toJid) inp],
      broadcasts := [originalPayloadOf (getChatMode st inp.toJid) inp],
      chats := (addMessageToChat chats inp.toJid
        (originalRecordOf (getChatMode st inp.toJid) inp)).1 }

/-- Inputs of the auto-reply tail of one inbound `onMessage` invocation, after
content resolution stored the inbound record: the resolved `messageForDb`
fields, the `getAIReply` outcome (`none` = the call threw), `Date.now()`,
`getHours()`, and the generated reply-record id tail / timestamp. -/
structure AutoInput where
  senderJid : String
  subType : String
  direction : String
  content : String
  llm : Option String
  nowMs : Int
  nowHour : Nat
  aiIdSuffix : String
  aiNowMs : Int
  deriving DecidableEq, Repr

/-- Observable effects of the auto-reply tail: the provider `sendText`
payload (`none` when no reply is sent), the resulting persisted state, the
records passed to `addMessageToChat`, the broadcast payloads, and the store. -/
structure AutoEffects where
  sentText : Option String
  state : AppState
  storeCalls : List Message
  broadcasts : List WsPayload
  chats : Chats

/-- The do-nothing outcome (mode not `'C'`, non-text, empty content, or a
caught LLM failure). -/
def autoNoop (st : AppState) (chats : Chats) : AutoEffects :=
  { sentText := none, state := st, storeCalls := [], broadcasts := [], chats := chats }

/-- `3 * 60 * 60 * 1000` — the `HOURS_3` constant of the auto-reply handler. -/
def HOURS_3 : Int := 3 * 60 * 60 * 1000

/-- `shouldIntroduce`: no `lastChatTime` entry for the conversation, or the
entry is more than three hours old. -/
def shouldIntroduce (st : AppState) (jid : String) (nowMs : Int) : Bool :=
  match st.lastChatTime jid with
  | none => true
  | some t => decide (nowMs - t > HOURS_3)

/-- The time-of-day greeting plus the fixed self-identification line. -/
def introFor (hour : Nat) : String :=
  (if hour < 12 then "Good morning" else if hour < 17 then "Good afternoon"
   else "Good evening")
    ++ ". This is Ava, Personal Assistant to Mr. Rupesh Kumar. "

/-- The conditional prefixing of the reply: the intro is prepended UNLESS the
reply already starts with "good" (case-insensitively) and contains "Ava". -/
def introApplied (hour : Nat) (reply : String) : String :=
  if !(jsStartsWith (jsToLower reply) "good") || !(jsIncludes reply "Ava") then
    introFor hour ++ reply
  else reply

/-- The `state.lastChatTime[senderJid] = new Date().toISOString()` write. -/
def stateAfterIntro (st : AppState) (jid : String) (nowMs : Int) : AppState :=
  { st with lastChatTime := fun j => if j = jid then some nowMs else st.lastChatTime j }

/-- The reply text actually sent: prefixed only inside the `shouldIntroduce`
branch. -/
def autoReplyText (st : AppState) (inp : AutoInput) (reply : String) : String :=
  if shouldIntroduce st inp.senderJid inp.nowMs then introApplied inp.nowHour reply
  else reply

/-- The persisted state after the invocation: `lastChatTime` is refreshed ONLY
when the introduction gate fired. -/
def autoStateAfter (st : AppState) (inp : AutoInput) : AppState :=
  if shouldIntroduce st inp.senderJid inp.nowMs then
    stateAfterIntro st inp.senderJid inp.nowMs
  else st

/-- `aiMessageForDb` of the auto-reply. -/
def autoRecordOf (inp : AutoInput) (text : String) : Message :=
  { id := "ai_" ++ inp.aiIdSuffix, subType := some "chat", content := some text,
    ts := some inp.aiNowMs, direction := some "sent",
    isOriginalInSemiAI := false, isAIRewrite := false }

/-- `aiPayloadForWs` of the auto-reply. -/
def autoPayloadOf (inp : AutoInput) (text : String) : WsPayload :=
  { fromJid := inp.senderJid, subType := "chat", content := text,
    timestampMs := inp.aiNowMs, direction := "sent", id := "ai_" ++ inp.aiIdSuffix,
    isOriginalInSemiAI := false, isAIRewrite := false }

/-- The auto-reply tail of the inbound handler: for a stored text message in a
mode-`'C'` conversation, received, with non-empty content, call the LLM; on
success optionally prefix the introduction (refreshing `lastChatTime`), send,
store and broadcast the reply; on LLM failure (`llm = none`, the `catch`
branch) do nothing.  All other shapes fall through to the no-op. -/
def autoReplyHandler (st : AppState) (chats : Chats) (inp : AutoInput) : AutoEffects :=
  if inp.subType == "chat" && (getChatMode st inp.senderJid == "C")
      && (inp.direction == "received") && !(jsTrim inp.content == "") then
    match inp.llm with
    | none => autoNoop st chats
    | some reply =>
      { sentText := some (autoReplyText st inp reply),
        state := autoStateAfter st inp,
        storeCalls := [autoRecordOf inp (autoReplyText st inp reply)],
        broadcasts := [autoPayloadOf inp (autoReplyText st inp reply)],
        chats := (addMessageToChat chats inp.senderJid
          (autoRecordOf inp (autoReplyText st inp reply))).1 }
  else autoNoop st chats

/-- C4: in Assisted mode (mode `'B'`, not a rewrite preview), the LLM rewrite
is used as the provider-send payload (after trimming) exactly when it is
non-empty after trimming, its trimmed length is at most 1.5× the original
length, and it contains none of the blacklisted filler phrases; in every other
case — guard failure or LLM failure — the original text is the payload. -/
theorem assisted_rewrite_guard (st : AppState) (chats : Chats) (inp : SendInput)
    (hm : getChatMode st inp.toJid = "B") (hp : inp.isRewrittenPreview = false) :
    (sendTextHandler st chats inp).providerText =
      (match inp.llm with
       | some rewritten =>
         if rewriteGuardOk inp.message rewritten then jsTrim rewritten else inp.message
       | none => inp.message) := by
  have hfin : assistedFinalMessage (getChatMode st inp.toJid) inp =
      (match inp.llm with
       | some rewritten =>
         if rewriteGuardOk inp.message rewritten then jsTrim rewritten else inp.message
       | none => inp.message) := by
    unfold assistedFinalMessage
    rw [hm, hp]
    simp
  unfold sendTextHandler
  split <;> exact hfin

/-- Mode registry with every conversation in Assisted mode, for witnesses. -/
def stB : AppState := ⟨fun _ => some "B", "", fun _ => none⟩

/-- C4 witness input: the LLM "rewrite" is a long chatty response, more than
1.5× the original length, so the original must be sent. -/
def w4inp : SendInput :=
  { toJid := "9@c.us", msgId := "cli1", message := "helo",
    isRewrittenPreview := false,
    llm := some "I would be happy to assist you with that request today my friend",
    nowMs := 0, aiNowMs := 0, aiIdSuffix := "z" }

/-- Concrete instantiation of `assisted_rewrite_guard`: an over-long rewrite
is discarded and the original text is the provider payload. -/
theorem assisted_rewrite_guard_witness :
    (sendTextHandler stB emptyChats w4inp).providerText = "helo" :=
  (assisted_rewrite_guard stB emptyChats w4inp rfl rfl).trans (by decide)

/-- C5 (amended): for every Assisted-mode text send, the original is always
BROADCAST first, flagged `isOriginalInSemiAI`, and is passed to the
deduplication gate for storage (so it is stored unless the gate rejects it as
a duplicate — see the counterexample for a send where it is not stored); a
second record flagged `isAIRewrite` carrying the final text is broadcast and
passed to the gate IF AND ONLY IF the final sent text differs from the
original. -/
theorem assisted_dual_record (st : AppState) (chats : Chats) (inp : SendInput)
    (hm : getChatMode st inp.toJid = "B") :
    (sendTextHandler st chats inp).broadcasts =
        originalPayloadOf "B" inp ::
          (if (sendTextHandler st chats inp).providerText ≠ inp.message then
            [aiPayloadOf inp ((sendTextHandler st chats inp).providerText)]
          else [])
    ∧ (sendTextHandler st chats inp).storeCalls =
        originalRecordOf "B" inp ::
          (if (sendTextHandler st chats inp).providerText ≠ inp.message then
            [aiRecordOf inp ((sendTextHandler st chats inp).providerText)]
          else [])
    ∧ (originalPayloadOf "B" inp).isOriginalInSemiAI = true
    ∧ (aiPayloadOf inp ((sendTextHandler st chats inp).providerText)).isAIRewrite = true
    ∧ (sendTextHandler st chats inp).chats =
        (if (sendTextHandler st chats inp).providerText ≠ inp.message then
          (addMessageToChat
            (addMessageToChat chats inp.toJid (originalRecordOf "B" inp)).1
            inp.toJid (aiRecordOf inp ((sendTextHandler st chats inp).providerText))).1
        else (addMessageToChat chats inp.toJid (originalRecordOf "B" inp)).1) := by
  unfold sendTextHandler
  rw [hm]
  by_cases hdiff : assistedFinalMessage "B" inp ≠ inp.message
  · rw [if_pos hdiff]
    refine ⟨?_, ?_, rfl, rfl, ?_⟩ <;> simp [hdiff]
  · rw [if_neg hdiff]
    refine ⟨?_, ?_, rfl, rfl, ?_⟩ <;> simp [hdiff]

/-- C5 witness input: a clean short rewrite is accepted, so both the original
and the rewrite records are produced. -/
def w5inp : SendInput :=
  { toJid := "9@c.us", msgId := "cli5", message := "helo m8",
    isRewrittenPreview := false, llm := some "Hello.",
    nowMs := 0, aiNowMs := 1, aiIdSuffix := "r5" }

/-- Concrete instantiation of `assisted_dual_record`: accepted rewrite,
original broadcast first and both records emitted. -/
theorem assisted_dual_record_witness :
    (sendTextHandler stB emptyChats w5inp).broadcasts =
      [originalPayloadOf "B" w5inp, aiPayloadOf w5inp "Hello."]
    ∧ (sendTextHandler stB emptyChats w5inp).storeCalls =
      [originalRecordOf "B" w5inp, aiRecordOf w5inp "Hello."] := by
  have h := assisted_dual_record stB emptyChats w5inp rfl
  constructor
  · rw [h.1]; decide
  · rw [h.2.1]; decide

/-- A message already stored when the C5 counterexample send arrives: same
content, direction `sent`, kind `chat`, 1 s earlier. -/
def x5prev : Message := ⟨"prev", some "hello", some "sent", some "chat", some 1000, false, false⟩

/-- Store already holding `x5prev`. -/
def x5chats : Chats := fun _ => [x5prev]

/-- The C5 counterexample send: Assisted mode, original text `"hello"`,
LLM call fails (so the final text equals the original). -/
def x5inp : SendInput :=
  { toJid := "7@c.us", msgId := "cli2", message := "hello",
    isRewrittenPreview := false, llm := none,
    nowMs := 2000, aiNowMs := 2000, aiIdSuffix := "x" }

/-- C5 counterexample: an Assisted-mode send whose original is broadcast but
NOT stored — the deduplication gate rejects it as a near-duplicate of a
message stored one second earlier — contradicting "the original text is
always stored". -/
theorem assisted_dual_record_counterexample :
    getChatMode stB x5inp.toJid = "B"
    ∧ (sendTextHandler stB x5chats x5inp).broadcasts = [originalPayloadOf "B" x5inp]
    ∧ ((sendTextHandler stB x5chats x5inp).chats) x5inp.toJid = [x5prev]
    ∧ originalRecordOf "B" x5inp ∉ ((sendTextHandler stB x5chats x5inp).chats) x5inp.toJid := by
  refine ⟨rfl, by decide, by decide, by decide⟩

/-- C7 (amended): in a mode-`'C'` conversation, on a received text with
non-empty content and a successful LLM call, the reply is prefixed with the
time-of-day greeting + self-identification exactly when the persisted
`lastChatTime` entry is absent or more than 3 hours old AND the reply does not
already both start with "good" (case-insensitively) and contain "Ava"; the
`lastChatTime` entry is refreshed exactly when the gate fires (so it tracks
the last INTRODUCTION, not the last exchange — see the counterexample). -/
theorem autonomous_greeting_gate (st : AppState) (chats : Chats) (inp : AutoInput)
    (reply : String)
    (hmode : getChatMode st inp.senderJid = "C") (hsub : inp.subType = "chat")
    (hdir : inp.direction = "received") (hct : jsTrim inp.content ≠ "")
    (hllm : inp.llm = some reply) :
    (shouldIntroduce st inp.senderJid inp.nowMs = true →
        (autoReplyHandler st chats inp).sentText =
          some (if !(jsStartsWith (jsToLower reply) "good") || !(jsIncludes reply "Ava")
            then introFor inp.nowHour ++ reply else reply)
        ∧ (autoReplyHandler st chats inp).state.lastChatTime inp.senderJid =
            some inp.nowMs)
    ∧ (shouldIntroduce st inp.senderJid inp.nowMs = false →
        (autoReplyHandler st chats inp).sentText = some reply
        ∧ (autoReplyHandler st chats inp).state = st) := by
  have hcond : (inp.subType == "chat" && (getChatMode st inp.senderJid == "C")
      && (inp.direction == "received") && !(jsTrim inp.content == "")) = true := by
    simp [hmode, hsub, hdir, hct]
  unfold autoReplyHandler
  rw [hcond, hllm]
  constructor
  · intro hsi
    refine ⟨?_, ?_⟩ <;>
      simp [autoReplyText, introApplied, autoStateAfter, stateAfterIntro, hsi]
  · intro hsi
    refine ⟨?_, ?_⟩ <;> simp [autoReplyText, autoStateAfter, hsi]

/-- Mode registry with every conversation in Autonomous mode. -/
def st7 : AppState := ⟨fun _ => some "C", "", fun _ => none⟩

/-- C7 witness input: never-contacted conversation, plain reply `"Hello"`. -/
def x7b1 : AutoInput :=
  { senderJid := "c", subType := "chat", direction := "received", content := "hi",
    llm := some "Hello", nowMs := 0, nowHour := 9, aiIdSuffix := "s1", aiNowMs := 0 }

/-- Concrete instantiation of `autonomous_greeting_gate`: first-ever exchange,
plain reply, so the intro is prepended and `lastChatTime` set. -/
theorem autonomous_greeting_gate_witness :
    (autoReplyHandler st7 emptyChats x7b1).sentText =
      some "Good morning. This is Ava, Personal Assistant to Mr. Rupesh Kumar. Hello"
    ∧ (autoReplyHandler st7 emptyChats x7b1).state.lastChatTime "c" = some 0 := by
  have h := (autonomous_greeting_gate st7 emptyChats x7b1 "Hello"
    rfl rfl rfl (by decide) rfl).1 rfl
  exact ⟨h.1.trans (by decide), h.2⟩

/-- C7 counterexample input (a): never contacted, but the LLM reply happens to
start with "Good" and mention "Ava". -/
def x7a : AutoInput :=
  { senderJid := "c", subType := "chat", direction := "received", content := "hi",
    llm := some "Good morning! Ava here.", nowMs := 0, nowHour := 9,
    aiIdSuffix := "s0", aiNowMs := 0 }

/-- C7 counterexample input (b): second exchange two hours after the first. -/
def x7b2 : AutoInput :=
  { senderJid := "c", subType := "chat", direction := "received", content := "hi",
    llm := some "Hello", nowMs := 7200000, nowHour := 9, aiIdSuffix := "s2", aiNowMs := 7200000 }

/-- C7 counterexample input (c): third exchange, 3 h 0 min 0.001 s after the
FIRST exchange but only about one hour after the second. -/
def x7b3 : AutoInput :=
  { senderJid := "c", subType := "chat", direction := "received", content := "hi",
    llm := some "Hello", nowMs := 10800001, nowHour := 9, aiIdSuffix := "s3", aiNowMs := 10800001 }

/-- C7 counterexample: (a) with no prior contact at all (gap > 3 h trivially)
the reply `"Good morning! Ava here."` is NOT prefixed, because the code skips
the intro when the reply already starts with "good" and contains "Ava";
(b) a reply IS prefixed although the previous exchange happened about one
hour earlier (< 3 h): the persisted timestamp is only refreshed when an
introduction fires, so it records the last introduction, not the last
exchange. -/
theorem autonomous_greeting_gate_counterexample :
    (st7.lastChatTime "c" = none
      ∧ (autoReplyHandler st7 emptyChats x7a).sentText = some "Good morning! Ava here.")
    ∧ ((autoReplyHandler (autoReplyHandler st7 emptyChats x7b1).state emptyChats
          x7b2).sentText = some "Hello"
      ∧ (autoReplyHandler (autoReplyHandler (autoReplyHandler st7 emptyChats
          x7b1).state emptyChats x7b2).state emptyChats x7b3).sentText =
          some "Good morning. This is Ava, Personal Assistant to Mr. Rupesh Kumar. Hello"
      ∧ x7b3.nowMs - x7b2.nowMs < HOURS_3) := by
  refine ⟨⟨rfl, by decide⟩, by decide, by decide, by decide⟩

/-- C8: LLM failure semantics.  (i) Assisted mode, LLM failure: the provider
payload is the unmodified original, which is still broadcast and passed to
the store through the usual gate; no rewrite record exists.  (ii) Autonomous
mode (indeed ANY auto-reply invocation), LLM failure: nothing is sent, stored
or broadcast and the state is untouched.  In both handlers the failure is a
caught exception modelled as the `none` outcome: the handlers return normal
effect records, so the failure does not escape the invocation. -/
theorem llm_failure_semantics :
    (∀ (st : AppState) (chats : Chats) (inp : SendInput),
        getChatMode st inp.toJid = "B" → inp.isRewrittenPreview = false →
        inp.llm = none →
        (sendTextHandler st chats inp).providerText = inp.message
        ∧ (sendTextHandler st chats inp).broadcasts = [originalPayloadOf "B" inp]
        ∧ (sendTextHandler st chats inp).storeCalls = [originalRecordOf "B" inp]
        ∧ (sendTextHandler st chats inp).chats =
            (addMessageToChat chats inp.toJid (originalRecordOf "B" inp)).1)
    ∧ (∀ (st : AppState) (chats : Chats) (inp : AutoInput),
        inp.llm = none →
        autoReplyHandler st chats inp = autoNoop st chats) := by
  constructor
  · intro st chats inp hm _hp hllm
    have hfin : assistedFinalMessage "B" inp = inp.message := by
      unfold assistedFinalMessage
      rw [hllm]
      split <;> rfl
    unfold sendTextHandler
    rw [hm, if_neg (not_not_intro hfin)]
    exact ⟨hfin, rfl, rfl, rfl⟩
  · intro st chats inp hllm
    unfold autoReplyHandler
    split
    · rw [hllm]
    · rfl

/-- C8 witness inputs: an Assisted send and an Autonomous invocation whose
LLM calls both fail. -/
def x8send : SendInput :=
  { toJid := "9@c.us", msgId := "cli8", message := "yo", isRewrittenPreview := false,
    llm := none, nowMs := 0, aiNowMs := 0, aiIdSuffix := "w8" }

/-- Autonomous-mode invocation whose LLM call fails. -/
def x8auto : AutoInput :=
  { senderJid := "c", subType := "chat", direction := "received", content := "hi",
    llm := none, nowMs := 0, nowHour := 9, aiIdSuffix := "w8a", aiNowMs := 0 }

/-- Concrete instantiation of `llm_failure_semantics`. -/
theorem llm_failure_semantics_witness :
    (sendTextHandler stB emptyChats x8send).providerText = "yo"
    ∧ autoReplyHandler st7 emptyChats x8auto = autoNoop st7 emptyChats :=
  ⟨(llm_failure_semantics.1 stB emptyChats x8send rfl rfl rfl).1,
   llm_failure_semantics.2 st7 emptyChats x8auto rfl⟩

end Ava
